import Mathlib

/-!
Shallow embedding of the aggregation core of the nutrition-dashboard
script `src/main.py`: date-range filtering, per-day nutrient totals via
group-by-date summation, today's totals, the range average of daily
totals, today vs. average deltas, per-food nutrient rankings, and the
data-loading gate.

Pandas missing values (`NaN`) are modelled as `Option ℚ` (`none` =
missing).  Pandas `sum` uses its defaults `skipna=True, min_count=0`,
so a sum over an empty or all-missing column is `0`, never missing;
pandas `mean` of an empty column is missing (`NaN`), modelled as
`none`.  Calendar dates (values of the `Date` column, already reduced
to a date in the fixed `Asia/Singapore` zone during loading) are
modelled as ordinal day numbers `Nat`.
-/

/-- The nutrient columns tracked by the dashboard (`src/main.py`
lines 140-148, 151-159, 235-245, 384-385). -/
inductive Nutrient
  | calories
  | protein
  | carbohydrates
  | sugar
  | fat
  | satFat
  | cholesterol
  | fiber
  | omega3
deriving DecidableEq

/-- One row of the loaded dataframe: one logged food-consumption event.
`date` is the derived `Date` column (calendar date of the timestamp in
the reference time zone); `item_name` is the `Item Name` column;
`nutrients` gives each nutrient column's value, `none` when the cell is
missing (`NaN`). -/
structure Entry where
  date : Nat
  item_name : String
  nutrients : Nutrient → Option ℚ

/-- Pandas `Series.sum()` with its defaults (`skipna=True`,
`min_count=0`): missing cells are skipped and an empty or all-missing
column sums to `0`; the result itself is never missing. -/
def pandasSum (xs : List (Option ℚ)) : Option ℚ :=
  some ((xs.filterMap id).sum)

/-- Pandas `Series.mean()`: the arithmetic mean of the values, `NaN`
(modelled `none`) when there are no values. -/
def pandasMean (xs : List ℚ) : Option ℚ :=
  if xs = [] then none else some (xs.sum / (xs.length : ℚ))

/-- `src/main.py` lines 124-125: `mask = (df['Date'] >= date_range[0]) &
(df['Date'] <= date_range[1]); filtered_df = df[mask]`. -/
def filtered_df (df : List Entry) (start stop : Nat) : List Entry :=
  df.filter (fun x => decide (start ≤ x.date) && decide (x.date ≤ stop))

/-- `src/main.py` lines 140-148: `today_metrics =
filtered_df[filtered_df['Date'] == today_date].agg({... : 'sum'})`,
one nutrient column at a time. -/
def today_metrics (fdf : List Entry) (today : Nat) (k : Nutrient) : Option ℚ :=
  pandasSum ((fdf.filter (fun x => decide (x.date = today))).map (fun x => x.nutrients k))

/-- The seven nutrient columns aggregated by `today_metrics` and
`daily_metrics` (`src/main.py` lines 140-148 and 151-159). -/
def metricKeys : List Nutrient :=
  [.calories, .protein, .carbohydrates, .fat, .satFat, .cholesterol, .fiber]

/-- The group keys produced by pandas `groupby('Date')` with its default
`sort=True`: the distinct dates of the frame, in ascending order. -/
def groupbyKeys (fdf : List Entry) : List Nat :=
  List.insertionSort (· ≤ ·) (fdf.map Entry.date).dedup

/-- The `'sum'` aggregate of nutrient column `k` over the
`groupby('Date')` group of date `d`: missing cells are skipped
(pandas `sum`, `skipna=True`, `min_count=0`). -/
def groupSum (fdf : List Entry) (d : Nat) (k : Nutrient) : ℚ :=
  ((fdf.filter (fun x => decide (x.date = d))).filterMap (fun x => x.nutrients k)).sum

/-- `src/main.py` lines 235-245: `daily_totals =
filtered_df.groupby('Date').agg({... : 'sum'}).reset_index()` — one row
per distinct date (ascending), each row holding that date's per-nutrient
sums. -/
def daily_totals (fdf : List Entry) : List (Nat × (Nutrient → ℚ)) :=
  (groupbyKeys fdf).map (fun d => (d, fun k => groupSum fdf d k))

/-- `src/main.py` lines 151-159: `daily_metrics =
filtered_df.groupby('Date').agg({... : 'sum'}).mean()`, read off one
nutrient column at a time: the mean of that column of the grouped
table (`NaN`, i.e. `none`, when the frame has no rows). -/
def daily_metrics (fdf : List Entry) (k : Nutrient) : Option ℚ :=
  pandasMean ((daily_totals fdf).map (fun p => p.2 k))

/-- `src/main.py` lines 167, 173, ...: `value = float(today_metrics[k])
if not pd.isna(today_metrics[k]) else 0`. -/
def metric_value (fdf : List Entry) (today : Nat) (k : Nutrient) : ℚ :=
  (today_metrics fdf today k).getD 0

/-- `src/main.py` lines 168, 174, ...: `delta =
float(today_metrics[k] - daily_metrics[k]) if not
pd.isna(today_metrics[k]) else None`.  `none` models Python `None`;
when the subtraction itself involves `NaN` (empty frame) the displayed
float is `NaN`, also modelled `none`. -/
def metric_delta (fdf : List Entry) (today : Nat) (k : Nutrient) : Option ℚ :=
  match today_metrics fdf today k, daily_metrics fdf k with
  | some t, some a => some (t - a)
  | _, _ => none

/-- The group keys of pandas `groupby('Item Name')` (default
`sort=True`): distinct item names in ascending lexical order. -/
def itemKeys (fdf : List Entry) : List String :=
  List.insertionSort (· ≤ ·) (fdf.map Entry.item_name).dedup

/-- Descending order on (item, summed value) pairs, as produced by
`sort_values(ascending=False)` on the summed series. -/
def byDesc : String × ℚ → String × ℚ → Prop := fun a b => b.2 ≤ a.2

instance : DecidableRel byDesc := fun a b => inferInstanceAs (Decidable (b.2 ≤ a.2))

instance : IsTotal (String × ℚ) byDesc := ⟨fun a b => le_total b.2 a.2⟩

instance : IsTrans (String × ℚ) byDesc := ⟨fun _ _ _ h1 h2 => le_trans h2 h1⟩

/-- `src/main.py` line 401: `nutrient_by_food =
filtered_df.groupby('Item Name')[selected_nutrient].sum()
.sort_values(ascending=False).head(10)`. -/
def nutrient_by_food (fdf : List Entry) (k : Nutrient) : List (String × ℚ) :=
  (List.insertionSort byDesc
    ((itemKeys fdf).map (fun n =>
      (n, ((fdf.filter (fun x => decide (x.item_name = n))).filterMap
            (fun x => x.nutrients k)).sum)))).take 10

/-- The dates of the range that have at least one entry (the spec's
"days in range that have at least one entry", in occurrence order). -/
def presentDates (fdf : List Entry) : List Nat :=
  (fdf.map Entry.date).dedup

/-- Error kind of the spec's `computeMacroProportions`. -/
inductive MacroError
  | DivisionUndefined
deriving DecidableEq

/-- A totals record handed to the spec's `computeMacroProportions`;
each field may be absent. -/
structure MacroTotals where
  calories : Option ℚ
  protein : Option ℚ
  carbohydrates : Option ℚ
  fat : Option ℚ

/-- Modelled from the spec: `computeMacroProportions` (spec §4.1) is
absent from `src/main.py` (it belongs to a repository variant not under
`src/`).  Per the spec: `protein_pct = protein*4/calories*100`,
`carb_pct = carbohydrates*4/calories*100`, `fat_pct =
fat*9/calories*100`, failing with `DivisionUndefined` when
`totals.calories` is zero, absent, or negative. -/
def computeMacroProportions (t : MacroTotals) : Except MacroError (ℚ × ℚ × ℚ) :=
  match t.calories with
  | none => .error .DivisionUndefined
  | some c =>
      if c ≤ 0 then .error .DivisionUndefined
      else .ok ((t.protein.getD 0) * 4 / c * 100,
                (t.carbohydrates.getD 0) * 4 / c * 100,
                (t.fat.getD 0) * 9 / c * 100)

/-- Outcome of the Airtable fetch-and-preprocess block inside the
`try:` of `get_airtable_data` (`src/main.py` lines 25-57): either some
step raises, or it yields the list of preprocessed rows (possibly
empty, when `table.all()` returned no records). -/
inductive FetchOutcome
  | raises
  | returns (records : List Entry)

/-- `src/main.py` lines 22-60: `get_airtable_data` returns `None` when
any exception is raised (lines 58-60), an empty frame when there are no
records (lines 32-34), and the preprocessed frame otherwise. -/
def get_airtable_data : FetchOutcome → Option (List Entry)
  | .raises => none
  | .returns rs => some rs

/-- What the top of the script does with the loaded frame. -/
inductive AppStep
  | errorHalt
  | warnHalt
  | runDashboard (df : List Entry)

/-- `src/main.py` lines 87-96: `df is None` halts with `st.error` +
`st.stop()`; `len(df) == 0` halts with `st.warning` + `st.stop()`;
otherwise the dashboard (all aggregation code) runs on `df`. -/
def appGate : Option (List Entry) → AppStep
  | none => .errorHalt
  | some [] => .warnHalt
  | some (x :: xs) => .runDashboard (x :: xs)

/-! ### Concrete entries used in witnesses and counterexamples -/

/-- An Apple entry with 25 g carbohydrates (spec §8 ranking example). -/
def appleA : Entry := ⟨1, "Apple", fun k => match k with | .carbohydrates => some 25 | _ => none⟩

/-- An Apple entry with 10 g carbohydrates (spec §8 ranking example). -/
def appleB : Entry := ⟨1, "Apple", fun k => match k with | .carbohydrates => some 10 | _ => none⟩

/-- A Rice entry with 45 g carbohydrates (spec §8 ranking example). -/
def riceA : Entry := ⟨1, "Rice", fun k => match k with | .carbohydrates => some 45 | _ => none⟩

/-- An entry on day 1 with 500 kcal and every other cell missing. -/
def oats : Entry := ⟨1, "Oats", fun k => match k with | .calories => some 500 | _ => none⟩

/-- An entry on day 1 with 45 kcal and every other cell missing. -/
def bread : Entry := ⟨1, "Bread", fun k => match k with | .calories => some 45 | _ => none⟩

/-- An entry on day 5 with 30 kcal and every other cell missing. -/
def fishE : Entry := ⟨5, "Fish", fun k => match k with | .calories => some 30 | _ => none⟩

/-- An entry on day 1 with 5 kcal whose sugar cell (like all others) is missing. -/
def tea : Entry := ⟨1, "Tea", fun k => match k with | .calories => some 5 | _ => none⟩

/-! ### Helper lemmas -/

/-- `today_metrics` (filter to today, then sum each column) computes the
same value as the `groupby` aggregate of today's group. -/
theorem today_metrics_eq_groupSum (fdf : List Entry) (today : Nat) (k : Nutrient) :
    today_metrics fdf today k = some (groupSum fdf today k) := by
  simp [today_metrics, groupSum, pandasSum, List.filterMap_map, Function.comp]

/-- The sorted `groupby('Date')` keys are a permutation of the distinct
dates in occurrence order. -/
theorem groupbyKeys_perm (fdf : List Entry) :
    (groupbyKeys fdf).Perm (presentDates fdf) :=
  List.perm_insertionSort _ _

/-- Each date appears at most once among the `groupby('Date')` keys. -/
theorem groupbyKeys_nodup (fdf : List Entry) : (groupbyKeys fdf).Nodup :=
  (groupbyKeys_perm fdf).nodup_iff.mpr (List.nodup_dedup _)

/-- A date is a `groupby('Date')` key exactly when some row has it. -/
theorem mem_groupbyKeys (fdf : List Entry) (d : Nat) :
    d ∈ groupbyKeys fdf ↔ d ∈ fdf.map Entry.date := by
  rw [(groupbyKeys_perm fdf).mem_iff]
  exact List.mem_dedup

/-- Column `k` of the grouped daily-totals table. -/
theorem daily_totals_col (fdf : List Entry) (k : Nutrient) :
    (daily_totals fdf).map (fun p => p.2 k)
      = (groupbyKeys fdf).map (fun d => groupSum fdf d k) := by
  simp [daily_totals]

/-- A non-empty frame has at least one `groupby('Date')` key. -/
theorem groupbyKeys_ne_nil (fdf : List Entry) (h : fdf ≠ []) :
    groupbyKeys fdf ≠ [] := by
  intro hnil
  have hpres : presentDates fdf = [] :=
    ((hnil ▸ groupbyKeys_perm fdf : ([] : List Nat).Perm (presentDates fdf)).symm).eq_nil
  have : fdf.map Entry.date = [] := (List.dedup_eq_nil _).mp hpres
  exact h (List.map_eq_nil_iff.mp this)

/-- On a non-empty frame, `daily_metrics` is the arithmetic mean of the
per-day sums over the days that actually occur in the frame. -/
theorem daily_metrics_eq_mean (fdf : List Entry) (k : Nutrient) (h : fdf ≠ []) :
    daily_metrics fdf k
      = some (((presentDates fdf).map (fun d => groupSum fdf d k)).sum /
          ((presentDates fdf).length : ℚ)) := by
  have hperm : ((groupbyKeys fdf).map (fun d => groupSum fdf d k)).Perm
      ((presentDates fdf).map (fun d => groupSum fdf d k)) :=
    (groupbyKeys_perm fdf).map _
  have hmapne : (groupbyKeys fdf).map (fun d => groupSum fdf d k) ≠ [] := by
    simpa using groupbyKeys_ne_nil fdf h
  rw [daily_metrics, daily_totals_col, pandasMean, if_neg hmapne,
    hperm.sum_eq, hperm.length_eq, List.length_map]

/-- Filtering a keyed table for a key that occurs nowhere yields nothing. -/
theorem filter_key_eq_nil {β : Type} (g : Nat → β) (d : Nat) (l : List Nat)
    (hd : d ∉ l) :
    (l.map (fun x => (x, g x))).filter (fun p => decide (p.1 = d)) = [] := by
  rw [List.filter_eq_nil_iff]
  intro p hp
  obtain ⟨x, hx, rfl⟩ := List.mem_map.mp hp
  simp only [decide_eq_true_eq]
  intro hxd
  exact hd (hxd ▸ hx)

/-- Filtering a keyed table with distinct keys for a key that occurs
yields exactly that key's row. -/
theorem filter_key_of_nodup {β : Type} (g : Nat → β) (d : Nat) (l : List Nat)
    (hnd : l.Nodup) (hd : d ∈ l) :
    (l.map (fun x => (x, g x))).filter (fun p => decide (p.1 = d)) = [(d, g d)] := by
  induction l with
  | nil => cases hd
  | cons a l ih =>
      obtain ⟨ha, hl⟩ := List.nodup_cons.mp hnd
      by_cases hda : a = d
      · subst hda
        have hrest : (l.map (fun x => (x, g x))).filter (fun p => decide (p.1 = a)) = [] :=
          filter_key_eq_nil g a l ha
        simp [List.filter_cons, hrest]
      · have hdl : d ∈ l := by
          rcases List.mem_cons.mp hd with h1 | h1
          · exact absurd h1.symm hda
          · exact h1
        simp [List.filter_cons, hda, ih hl hdl]

/-- The daily-totals row of a date that occurs in the frame. -/
theorem daily_totals_filter (fdf : List Entry) (d : Nat) (hd : d ∈ groupbyKeys fdf) :
    (daily_totals fdf).filter (fun p => decide (p.1 = d))
      = [(d, fun k => groupSum fdf d k)] := by
  have h := filter_key_of_nodup (fun x => fun k => groupSum fdf x k) d
    (groupbyKeys fdf) (groupbyKeys_nodup fdf) hd
  simpa [daily_totals] using h

/-! ### Claims -/

/-- Claim C1: for every collection of entries, every day `d` occurring in
it and every nutrient key `k`, the grouped daily-totals table has exactly
one row for `d`, and its value for `k` equals the direct sum of `k`
(missing cells skipped) over exactly those entries whose date is `d`. -/
theorem C1_daily_totals_direct_sum (entries : List Entry) (d : Nat) (k : Nutrient)
    (hd : d ∈ entries.map Entry.date) :
    ((daily_totals entries).filter (fun p => decide (p.1 = d))).map (fun p => p.2 k)
      = [((entries.filter (fun x => decide (x.date = d))).filterMap
          (fun x => x.nutrients k)).sum] := by
  have hmem : d ∈ groupbyKeys entries := (mem_groupbyKeys entries d).mpr hd
  rw [daily_totals_filter entries d hmem]
  simp [groupSum]

/-- Witness for C1: on two concrete entries, day 1's total of calories
is the direct sum over day 1's single entry. -/
theorem C1_daily_totals_direct_sum_witness :
    (1 ∈ ([bread, fishE] : List Entry).map Entry.date)
    ∧ ((daily_totals [bread, fishE]).filter (fun p => decide (p.1 = 1))).map
        (fun p => p.2 Nutrient.calories)
      = [((([bread, fishE] : List Entry).filter (fun x => decide (x.date = 1))).filterMap
          (fun x => x.nutrients Nutrient.calories)).sum] :=
  ⟨by decide, C1_daily_totals_direct_sum [bread, fishE] 1 Nutrient.calories (by decide)⟩

/-- Claim C2: on a non-empty filtered frame, the per-nutrient average
daily value is the arithmetic mean of the per-day sums over exactly the
days of the range that have at least one entry; every contributing day
has an entry, so absent days contribute nothing (not a zero). -/
theorem C2_average_over_present_days (entries : List Entry) (start stop : Nat)
    (k : Nutrient) (hk : k ∈ metricKeys)
    (hne : filtered_df entries start stop ≠ []) :
    daily_metrics (filtered_df entries start stop) k
      = some (((presentDates (filtered_df entries start stop)).map
            (fun d => groupSum (filtered_df entries start stop) d k)).sum
          / ((presentDates (filtered_df entries start stop)).length : ℚ))
    ∧ ∀ d ∈ presentDates (filtered_df entries start stop),
        ∃ x ∈ filtered_df entries start stop, x.date = d := by
  refine ⟨daily_metrics_eq_mean _ k hne, ?_⟩
  intro d hdm
  simp only [presentDates, List.mem_dedup] at hdm
  obtain ⟨x, hx, rfl⟩ := List.mem_map.mp hdm
  exact ⟨x, hx, rfl⟩

/-- Witness for C2: calories average on a concrete two-day frame. -/
theorem C2_average_over_present_days_witness :
    (Nutrient.calories ∈ metricKeys)
    ∧ (filtered_df [bread, fishE] 1 5 ≠ [])
    ∧ (daily_metrics (filtered_df [bread, fishE] 1 5) Nutrient.calories
        = some (((presentDates (filtered_df [bread, fishE] 1 5)).map
              (fun d => groupSum (filtered_df [bread, fishE] 1 5) d Nutrient.calories)).sum
            / ((presentDates (filtered_df [bread, fishE] 1 5)).length : ℚ))
      ∧ ∀ d ∈ presentDates (filtered_df [bread, fishE] 1 5),
          ∃ x ∈ filtered_df [bread, fishE] 1 5, x.date = d) :=
  ⟨by decide, by simp +decide [filtered_df, bread, fishE],
    C2_average_over_present_days [bread, fishE] 1 5 Nutrient.calories
      (by decide) (by simp +decide [filtered_df, bread, fishE])⟩

/-- Claim C9: when the reference today lies inside the selected range and
has at least one entry, today is itself one of the contributing days, and
the per-nutrient delta equals today's sum minus the mean of the per-day
sums over all present days of the range — a mean that includes today. -/
theorem C9_delta_mean_includes_today (entries : List Entry) (start stop today : Nat)
    (k : Nutrient) (h1 : start ≤ today) (h2 : today ≤ stop)
    (h3 : ∃ x ∈ entries, x.date = today) :
    today ∈ presentDates (filtered_df entries start stop)
    ∧ metric_delta (filtered_df entries start stop) today k
      = some (groupSum (filtered_df entries start stop) today k
          - ((presentDates (filtered_df entries start stop)).map
              (fun d => groupSum (filtered_df entries start stop) d k)).sum
            / ((presentDates (filtered_df entries start stop)).length : ℚ)) := by
  obtain ⟨x, hx, hxd⟩ := h3
  have hxf : x ∈ filtered_df entries start stop := by
    simp only [filtered_df, List.mem_filter, Bool.and_eq_true, decide_eq_true_eq]
    exact ⟨hx, hxd ▸ h1, hxd ▸ h2⟩
  have hne : filtered_df entries start stop ≠ [] := List.ne_nil_of_mem hxf
  have hmem : today ∈ presentDates (filtered_df entries start stop) := by
    simp only [presentDates, List.mem_dedup]
    exact List.mem_map.mpr ⟨x, hxf, hxd⟩
  refine ⟨hmem, ?_⟩
  rw [metric_delta, today_metrics_eq_groupSum, daily_metrics_eq_mean _ _ hne]

/-- Witness for C9: today = day 5 inside range [1,5] with an entry. -/
theorem C9_delta_mean_includes_today_witness :
    (1 ≤ 5) ∧ (5 ≤ 5) ∧ (∃ x ∈ ([bread, fishE] : List Entry), x.date = 5)
    ∧ (5 ∈ presentDates (filtered_df [bread, fishE] 1 5)
      ∧ metric_delta (filtered_df [bread, fishE] 1 5) 5 Nutrient.calories
        = some (groupSum (filtered_df [bread, fishE] 1 5) 5 Nutrient.calories
            - ((presentDates (filtered_df [bread, fishE] 1 5)).map
                (fun d => groupSum (filtered_df [bread, fishE] 1 5) d Nutrient.calories)).sum
              / ((presentDates (filtered_df [bread, fishE] 1 5)).length : ℚ))) :=
  ⟨by decide, by decide,
    ⟨fishE, List.mem_cons_of_mem _ (List.mem_cons_self _ _), rfl⟩,
    C9_delta_mean_includes_today [bread, fishE] 1 5 5 Nutrient.calories
      (by decide) (by decide)
      ⟨fishE, List.mem_cons_of_mem _ (List.mem_cons_self _ _), rfl⟩⟩

/-- Claim C5 (spec-modelled: the operation is absent from `src/main.py`):
`computeMacroProportions` fails with `DivisionUndefined` exactly when the
calories total is absent, zero, or negative; on every other input it
returns a triple of well-defined rationals, so it never produces a
NaN/infinity, and in particular `calories = 0` always fails. -/
theorem C5_macro_division_guard (t : MacroTotals) :
    computeMacroProportions t = .error .DivisionUndefined
      ↔ t.calories = none ∨ ∃ c, t.calories = some c ∧ c ≤ 0 := by
  rcases ht : t.calories with _ | c
  · simp [computeMacroProportions, ht]
  · by_cases hc : c ≤ 0
    · simp only [computeMacroProportions, ht, if_pos hc]
      exact ⟨fun _ => Or.inr ⟨c, rfl, hc⟩, fun _ => trivial⟩
    · simp only [computeMacroProportions, ht, if_neg hc]
      constructor
      · intro h
        cases h
      · rintro (h | ⟨c', hc', hle⟩)
        · cases h
        · cases hc'
          exact absurd hle hc

/-- Claim C10: the loader returns `None` when the fetch or preprocessing
raises, an empty frame when the source has no records; the app halts with
an error in the first case, a warning in the second, and the dashboard
(all aggregation) only ever runs on a non-empty frame. -/
theorem C10_load_gate :
    (∀ o df, appGate (get_airtable_data o) = .runDashboard df → df ≠ [])
    ∧ get_airtable_data .raises = none
    ∧ (∀ rs, get_airtable_data (.returns rs) = some rs)
    ∧ appGate none = .errorHalt
    ∧ appGate (some []) = .warnHalt := by
  refine ⟨?_, rfl, fun rs => rfl, rfl, rfl⟩
  intro o df h
  cases o with
  | raises => simp [get_airtable_data, appGate] at h
  | returns rs =>
      cases rs with
      | nil => simp [get_airtable_data, appGate] at h
      | cons a l =>
          simp only [get_airtable_data, appGate, AppStep.runDashboard.injEq] at h
          rw [← h]
          exact List.cons_ne_nil a l

/-- Witness for C10: a concrete non-empty load reaches the dashboard. -/
theorem C10_load_gate_witness :
    appGate (get_airtable_data (.returns [oats])) = .runDashboard [oats]
    ∧ ([oats] : List Entry) ≠ [] :=
  ⟨rfl, C10_load_gate.1 (.returns [oats]) [oats] rfl⟩

/-- Claim C3: ranking foods by a nutrient groups the filtered entries by
item name, sums the nutrient with missing cells contributing nothing
(indistinguishable from 0), sorts descending by the summed value and
truncates to the top 10; on the spec's example
`[(Apple,25),(Apple,10),(Rice,45)]` with key carbohydrates it returns
`[(Rice,45),(Apple,35)]`, and in general the result has at most 10 rows
and is sorted descending by summed value. -/
theorem C3_rank_foods_by_nutrient :
    nutrient_by_food [appleA, appleB, riceA] .carbohydrates
      = [("Rice", 45), ("Apple", 35)]
    ∧ (∀ fdf k, (nutrient_by_food fdf k).length ≤ 10)
    ∧ (∀ fdf k, List.Sorted byDesc (nutrient_by_food fdf k)) := by
  refine ⟨?_, ?_, ?_⟩
  · simp +decide [nutrient_by_food, itemKeys, byDesc, appleA, appleB, riceA,
      List.filterMap_cons]
    norm_num
  · intro fdf k
    rw [nutrient_by_food]
    simpa [List.length_take] using min_le_left 10 _
  · intro fdf k
    rw [nutrient_by_food]
    exact List.Pairwise.sublist (List.take_sublist 10 _)
      (List.sorted_insertionSort byDesc _)

/-- Claim C4, evaluated on the code at the failing input: one entry of
500 kcal on day 1, range [1,2], today = day 2 (zero entries today).
Pandas `sum` over the empty selection returns `0.0`, never `NaN`, so the
`pd.isna` guard cannot fire: the code reports today's calories as `0`
(not "unavailable") and a defined delta `0 - 500 = -500` (not `None`),
while the average is `500` from the other day.  This contradicts the
claim (and the intent expressed by the dead `pd.isna` guard). -/
theorem C4_today_empty_evaluation :
    today_metrics (filtered_df [oats] 1 2) 2 .calories = some 0
    ∧ metric_value (filtered_df [oats] 1 2) 2 .calories = 0
    ∧ metric_delta (filtered_df [oats] 1 2) 2 .calories = some (-500)
    ∧ daily_metrics (filtered_df [oats] 1 2) .calories = some 500 := by
  refine ⟨?_, ?_, ?_, ?_⟩
  · simp +decide [today_metrics, filtered_df, oats, pandasSum, List.filterMap_cons]
  · simp +decide [metric_value, today_metrics, filtered_df, oats, pandasSum,
      List.filterMap_cons]
  · simp +decide [metric_delta, today_metrics, daily_metrics, daily_totals,
      groupbyKeys, groupSum, pandasSum, pandasMean, filtered_df, oats,
      List.filterMap_cons]
  · simp +decide [daily_metrics, daily_totals, groupbyKeys, groupSum, pandasMean,
      filtered_df, oats, List.filterMap_cons]

/-- Claim C6 counterexample: entries of 45 kcal on day 1 and 30 kcal on
day 5, range [1,1], today = day 5 (outside the range).  The code computes
today's totals from the *filtered* frame, giving `0`; the raw daily total
at day 5 is `30`, so today's totals are not taken from the raw daily
totals as the claim states. -/
theorem C6_counterexample :
    today_metrics (filtered_df [bread, fishE] 1 1) 5 .calories = some 0
    ∧ groupSum [bread, fishE] 5 .calories = 30
    ∧ today_metrics (filtered_df [bread, fishE] 1 1) 5 .calories
        ≠ some (groupSum [bread, fishE] 5 .calories) := by
  refine ⟨?_, ?_, ?_⟩
  · simp +decide [today_metrics, filtered_df, bread, fishE, pandasSum,
      List.filterMap_cons]
  · simp +decide [groupSum, bread, fishE, List.filterMap_cons]
  · simp +decide [today_metrics, filtered_df, bread, fishE, pandasSum, groupSum,
      List.filterMap_cons]

/-- Claim C6 amended: today's totals are computed from the filtered
entries, so whenever the reference today lies outside `[start, stop]`
they are the pandas sum over an empty selection — `0` for every
nutrient — rather than the raw daily totals at today. -/
theorem C6_amended_today_from_filtered (entries : List Entry)
    (start stop today : Nat) (k : Nutrient)
    (h : stop < today ∨ today < start) :
    today_metrics (filtered_df entries start stop) today k = some 0 := by
  rw [today_metrics, pandasSum]
  have hnil : (filtered_df entries start stop).filter
      (fun x => decide (x.date = today)) = [] := by
    rw [List.filter_eq_nil_iff]
    intro x hx
    simp only [decide_eq_true_eq]
    intro hxd
    simp only [filtered_df, List.mem_filter, Bool.and_eq_true,
      decide_eq_true_eq] at hx
    rcases h with h | h
    · exact absurd (hxd ▸ hx.2.2) (not_le.mpr h)
    · exact absurd (hxd ▸ hx.2.1) (not_le.mpr h)
  rw [hnil]
  rfl

/-- Witness for the amended C6: today = 5 outside the range [1,1]. -/
theorem C6_amended_today_from_filtered_witness :
    ((1 : Nat) < 5 ∨ (5 : Nat) < 1)
    ∧ today_metrics (filtered_df [bread, fishE] 1 1) 5 Nutrient.calories = some 0 :=
  ⟨Or.inl (by decide),
    C6_amended_today_from_filtered [bread, fishE] 1 1 5 Nutrient.calories
      (Or.inl (by decide))⟩

/-- Claim C7 counterexample: with `start = 2 > 1 = stop` the code raises
no error at all — the mask simply selects no rows and every aggregate is
computed on the empty frame (average `NaN`, today sum `0`), i.e. a result
is returned instead of a typed `InvalidRange` failure. -/
theorem C7_counterexample :
    filtered_df [bread] 2 1 = []
    ∧ daily_metrics (filtered_df [bread] 2 1) .calories = none
    ∧ today_metrics (filtered_df [bread] 2 1) 5 .calories = some 0 := by
  refine ⟨?_, ?_, ?_⟩
  · simp +decide [filtered_df, bread]
  · simp +decide [daily_metrics, daily_totals, groupbyKeys, groupSum, pandasMean,
      filtered_df, bread]
  · simp +decide [today_metrics, filtered_df, bread, pandasSum]

/-- Claim C7 amended: for every range with `start > stop` the filter
selects no entries and the aggregation still proceeds on the empty frame,
yielding `NaN` (missing) averages and `0` today-sums; no typed
`InvalidRange` failure exists anywhere in the computation. -/
theorem C7_amended_empty_filter (entries : List Entry)
    (start stop today : Nat) (k : Nutrient) (h : stop < start) :
    filtered_df entries start stop = []
    ∧ daily_metrics (filtered_df entries start stop) k = none
    ∧ today_metrics (filtered_df entries start stop) today k = some 0 := by
  have hnil : filtered_df entries start stop = [] := by
    rw [filtered_df, List.filter_eq_nil_iff]
    intro x hx
    simp only [Bool.and_eq_true, decide_eq_true_eq, not_and]
    intro h1 h2
    exact absurd (le_trans h1 h2) (not_le.mpr h)
  refine ⟨hnil, ?_, ?_⟩
  · rw [hnil]
    rfl
  · rw [hnil]
    rfl

/-- Witness for the amended C7: the concrete inverted range [2,1]. -/
theorem C7_amended_empty_filter_witness :
    ((1 : Nat) < 2)
    ∧ (filtered_df [bread] 2 1 = []
      ∧ daily_metrics (filtered_df [bread] 2 1) Nutrient.calories = none
      ∧ today_metrics (filtered_df [bread] 2 1) 5 Nutrient.calories = some 0) :=
  ⟨by decide, C7_amended_empty_filter [bread] 2 1 5 Nutrient.calories (by decide)⟩

/-- Claim C8 counterexample: day 1 has one entry (`tea`), whose sugar
cell — like every contributing sugar cell of that day — is missing, yet
the daily-totals table reports the day's sugar as `0`, not as an
"unavailable" marker (pandas group sum with `min_count=0`). -/
theorem C8_counterexample :
    (daily_totals [tea]).map (fun p => p.2 Nutrient.sugar) = [0]
    ∧ tea.nutrients .sugar = none
    ∧ groupbyKeys [tea] = [1] := by
  refine ⟨?_, rfl, by simp +decide [groupbyKeys, tea]⟩
  simp +decide [daily_totals, groupbyKeys, groupSum, tea, List.filterMap_cons]

/-- Claim C8 amended: in the daily totals, a day all of whose
contributing entries lack nutrient `k` has its sum for `k` reported as
`0`; missing values are always treated as 0 by the group sum, and no
"unavailable" marker exists in the daily-totals table. -/
theorem C8_amended_all_absent_is_zero (fdf : List Entry) (k : Nutrient)
    (p : Nat × (Nutrient → ℚ)) (hp : p ∈ daily_totals fdf)
    (h : ∀ x ∈ fdf, x.date = p.1 → x.nutrients k = none) :
    p.2 k = 0 := by
  rw [daily_totals] at hp
  obtain ⟨d, hd, rfl⟩ := List.mem_map.mp hp
  show groupSum fdf d k = 0
  rw [groupSum]
  have hmap : (fdf.filter (fun x => decide (x.date = d))).filterMap
      (fun x => x.nutrients k) = [] := by
    rw [List.filterMap_eq_nil_iff]
    intro x hx
    rw [List.mem_filter] at hx
    exact h x hx.1 (by simpa using hx.2)
  rw [hmap]
  rfl

/-- Witness for the amended C8: the single all-sugar-absent day of
`[tea]` has its sugar total equal to 0. -/
theorem C8_amended_all_absent_is_zero_witness :
    (((1 : Nat), fun k => groupSum [tea] 1 k) ∈ daily_totals [tea])
    ∧ (∀ x ∈ ([tea] : List Entry), x.date = 1 → x.nutrients Nutrient.sugar = none)
    ∧ ((fun k => groupSum [tea] 1 k) Nutrient.sugar = 0) := by
  have hmem : (((1 : Nat), fun k => groupSum [tea] 1 k)) ∈ daily_totals [tea] :=
    List.mem_singleton.mpr rfl
  have habs : ∀ x ∈ ([tea] : List Entry),
      x.date = 1 → x.nutrients Nutrient.sugar = none := by
    intro x hx _
    rcases List.mem_singleton.mp hx with rfl
    rfl
  exact ⟨hmem, habs,
    C8_amended_all_absent_is_zero [tea] Nutrient.sugar _ hmem habs⟩
